import Mathlib

/-!
# Verification of the multi-agent orchestration core

Shallow embedding of the Node orchestrator service's coordination layer:
the A2A agent registry and task dispatcher (`src/orchestrator/src/a2a/server.ts`),
the supervisor's routing/fan-out/aggregation (`SupervisorAgent` in
`src/agents/supervisor.ts`), and the HTTP handler that fronts the supervisor
(`src/index.ts`).

Modelling conventions:
* The external analysis backend is an oracle `String → CallOutcome` giving, per
  target, either the JSON payload of a successful response or the derived
  error message of a failed call (transport error or backend-reported error).
* JSON payload values that the core only ever renders are modelled by
  `JsonValue`: either a string (rendered verbatim) or a non-string value
  carried together with its `JSON.stringify(v, null, 2)` rendering, since the
  core treats payload internals as opaque.
* JavaScript truthiness of optional strings (`if (caseId)`, `!result.error`)
  is modelled by `optTruthy`: absent or empty string is falsy.
* Side effects (backend HTTP calls, Redis publishes, cache writes) are
  reified as an `Effect` list so that "no call is issued" claims are statable.
  `RedisService.publish` / `cacheSet` swallow all errors internally, so they
  are modelled as unconditionally succeeding effects.
* The per-agent calls run concurrently in the source; completion order only
  affects JS object insertion order of `results` and the order of pushes into
  `toolsUsed`, never which keys/elements occur. The embedding fixes routing
  order; the verified claims are order-insensitive (counts, key lists,
  membership, duplicate-freeness).
-/

namespace AILegal

/-- Task lifecycle states of `A2ATask.status`. -/
inductive TaskStatus
  | pending
  | in_progress
  | completed
  | failed
deriving DecidableEq, Repr

/-- One element of a payload's `tools_used` list: an object with a `name`. -/
structure ToolUse where
  name : String
deriving DecidableEq, Repr

/-- A JSON value the core renders but does not inspect: either a string
(`typeof v === 'string'`), or a non-string value carried with its
`JSON.stringify(v, null, 2)` rendering. -/
inductive JsonValue
  | jStr (s : String)
  | jDump (rendering : String)
deriving DecidableEq, Repr

/-- How `aggregateResults` renders a payload value: verbatim when it is a
string, otherwise the structured JSON dump. -/
def renderValue : JsonValue → String
  | .jStr s => s
  | .jDump r => r

/-- The fields of a per-agent entry in an orchestration's `results` record:
either a backend response payload (`analysis` / `result` / `tools_used`), or
the `{error, status: 'failed'}` record written for a failed call. -/
structure ResultEntry where
  analysis : Option JsonValue := none
  result : Option JsonValue := none
  tools_used : Option (List ToolUse) := none
  error : Option String := none
  status : Option String := none
deriving DecidableEq, Repr

/-- Outcome of one backend analysis call: the response payload, or the
human-readable error message derived from the exception
(`error.response?.data?.error || error.message`). -/
abbrev CallOutcome : Type := Except String ResultEntry

/-- JS truthiness of an optional string: `undefined`/absent and `""` are
falsy, every other string truthy. -/
def optTruthy : Option String → Bool
  | none => false
  | some s => s ≠ ""

/-- JS `x || d` on an optional string. -/
def strOrDefault (x : Option String) (d : String) : String :=
  match x with
  | none => d
  | some s => if s = "" then d else s

/-- `SupervisorAgent.routeTask` restricted to OWN-property lookup: the static
routing table from analysis type to the ordered agent-id list, with
`['legal-analyst']` for every string that is not one of the table's own
keys. A pure function of its input, by construction.

This is the behavior of `routingMap[analysisType] || ['legal-analyst']` for
every `analysisType` that is not the name of an inherited `Object.prototype`
member; the full JS bracket-lookup semantics, inherited members included, is
`routeTaskJs` below, which agrees with this function on all other inputs
(`routeTaskJs_eq_routeTask`). -/
def routeTask (analysisType : String) : List String :=
  if analysisType = "full_analysis" then
    ["legal-analyst", "research-agent", "loophole-detector", "risk-assessor"]
  else if analysisType = "case_analysis" then
    ["legal-analyst", "research-agent"]
  else if analysisType = "loophole_detection" then
    ["loophole-detector", "research-agent"]
  else if analysisType = "risk_assessment" then
    ["risk-assessor", "legal-analyst"]
  else if analysisType = "contract_review" then
    ["contract-reviewer", "risk-assessor"]
  else if analysisType = "compliance_check" then
    ["contract-reviewer"]
  else if analysisType = "legal_research" then
    ["research-agent"]
  else if analysisType = "precedent_search" then
    ["research-agent"]
  else
    ["legal-analyst"]

/-- The keys of `routingMap` in `SupervisorAgent.routeTask`. -/
def routingKeys : List String :=
  ["full_analysis", "case_analysis", "loophole_detection", "risk_assessment",
   "contract_review", "compliance_check", "legal_research", "precedent_search"]

/-- `A2AAgentCard.status` values. -/
inductive AgentStatus
  | online
  | offline
  | busy
deriving DecidableEq, Repr

/-- Default backend base URL (`process.env.BACKEND_URL || 'http://backend:8000'`). -/
def BACKEND_URL : String := "http://backend:8000"

/-- An agent descriptor (`A2AAgentCard` in `src/types/index.ts`). -/
structure A2AAgentCard where
  id : String
  name : String
  description : String
  capabilities : List String
  endpoint : String
  status : AgentStatus
  tools : List String
deriving DecidableEq, Repr

/-- The six default agents installed by `A2AServer.registerDefaultAgents`. -/
def defaultAgents : List A2AAgentCard :=
  [{ id := "legal-analyst",
     name := "Legal Analysis Agent",
     description := "Comprehensive legal case analysis with ReAct pattern",
     capabilities := ["case_analysis", "full_analysis", "legal_research"],
     endpoint := BACKEND_URL ++ "/api/analyses/",
     status := .online,
     tools := ["rag_search_tool", "tavily_web_search_tool",
               "analyze_loopholes_tool", "risk_assessment_tool"] },
   { id := "research-agent",
     name := "Legal Research Agent",
     description := "Searches precedents and legal databases",
     capabilities := ["precedent_search", "legal_research", "web_search"],
     endpoint := BACKEND_URL ++ "/api/analyses/",
     status := .online,
     tools := ["rag_search_tool", "tavily_web_search_tool"] },
   { id := "loophole-detector",
     name := "Loophole Detection Agent",
     description := "Identifies legal loopholes and weaknesses",
     capabilities := ["loophole_detection", "weakness_analysis"],
     endpoint := BACKEND_URL ++ "/api/analyses/",
     status := .online,
     tools := ["analyze_loopholes_tool", "rag_search_tool"] },
   { id := "risk-assessor",
     name := "Risk Assessment Agent",
     description := "Evaluates legal risks and outcome probabilities",
     capabilities := ["risk_assessment", "probability_estimation"],
     endpoint := BACKEND_URL ++ "/api/analyses/",
     status := .online,
     tools := ["risk_assessment_tool"] },
   { id := "contract-reviewer",
     name := "Contract Review Agent",
     description := "Reviews contracts for issues and compliance",
     capabilities := ["contract_review", "compliance_check"],
     endpoint := BACKEND_URL ++ "/api/analyses/",
     status := .online,
     tools := ["contract_review_tool", "compliance_check_tool"] },
   { id := "supervisor",
     name := "Supervisor Agent",
     description := "Coordinates multi-agent workflows and aggregates results",
     capabilities := ["orchestration", "aggregation", "routing"],
     endpoint := "",
     status := .online,
     tools := [] }]

/-- `this.agents.get(id)` over the registry, represented as the list of
registered cards (the default seed set has pairwise-distinct ids). -/
def lookupAgent (agents : List A2AAgentCard) (id : String) : Option A2AAgentCard :=
  agents.find? (fun a => a.id = id)

/-- A task record (`A2ATask` in `src/types/index.ts`). The `input` payload is
opaque to the dispatcher and is modelled as an uninterpreted string.
Timestamps (`new Date()`) are modelled as naturals on a wall clock. -/
structure A2ATask where
  id : String
  agentId : String
  type : String
  input : String
  status : TaskStatus
  result : Option ResultEntry := none
  error : Option String := none
  createdAt : Nat
  completedAt : Option Nat := none
deriving DecidableEq, Repr

/-- Everything observable about one `POST /tasks` submission together with its
`processTask` dispatch.

JS event-loop fidelity: in the route handler, `this.processTask(task)` is
invoked without `await`, and an async function's body runs synchronously up to
its first `await`. `processTask` first executes `task.status = 'in_progress'`
and the registry lookup synchronously; if the agent is missing, the `throw`
and its `catch` (setting `failed`) also run synchronously. Only the `await
axios.post(...)` suspends. `res.status(201).json(task)` then serializes the
shared, already-mutated task object: `responseTask` is that snapshot, while
`finalTask` is the task after the suspended continuation has completed.
`statusTrace` lists the value of `task.status` after each assignment, in
program order. -/
structure SubmitOutcome where
  httpStatus : Nat
  responseTask : A2ATask
  finalTask : A2ATask
  backendCalled : Bool
  published : List String
  statusTrace : List TaskStatus
deriving Repr

/-- The `POST /tasks` handler plus `A2AServer.processTask` for one task.
`backend` is the outcome the single backend call would have; `tCreate` and
`tComplete` are the wall-clock readings at task creation and at completion
(`new Date()` at the two sites). -/
def submitTask (agents : List A2AAgentCard) (backend : CallOutcome)
    (taskId agentId taskType input : String) (tCreate tComplete : Nat) :
    SubmitOutcome :=
  -- POST /tasks: create and store the task in `pending`.
  let task0 : A2ATask :=
    { id := taskId, agentId := agentId, type := taskType, input := input,
      status := .pending, createdAt := tCreate }
  -- processTask synchronous prefix: `task.status = 'in_progress'`, lookup.
  let task1 : A2ATask := { task0 with status := .in_progress }
  match lookupAgent agents agentId with
  | none =>
    -- `throw new Error(`Agent not found: ...`)` caught synchronously: the
    -- task is already failed when the 201 response is serialized.
    let task2 : A2ATask :=
      { task1 with status := .failed,
                   error := some ("Agent not found: " ++ agentId) }
    { httpStatus := 201, responseTask := task2, finalTask := task2,
      backendCalled := false, published := [],
      statusTrace := [task0.status, task1.status, task2.status] }
  | some _ =>
    -- Suspends at `await axios.post`; the 201 response is serialized with
    -- the task in `in_progress`, the continuation runs afterwards.
    match backend with
    | .ok payload =>
      let task2 : A2ATask :=
        { task1 with status := .completed, result := some payload,
                     completedAt := some tComplete }
      { httpStatus := 201, responseTask := task1, finalTask := task2,
        backendCalled := true, published := ["a2a:task_complete"],
        statusTrace := [task0.status, task1.status, task2.status] }
    | .error msg =>
      let task2 : A2ATask := { task1 with status := .failed, error := some msg }
      { httpStatus := 201, responseTask := task1, finalTask := task2,
        backendCalled := true, published := [],
        statusTrace := [task0.status, task1.status, task2.status] }

/-- The JSON body of one backend analysis request
(`{analysis_type, case_id}` or `{analysis_type, input_text}`). -/
structure AnalysisRequest where
  analysis_type : String
  case_id : Option String := none
  input_text : Option String := none
deriving DecidableEq, Repr

/-- A reified side effect of an orchestration: one backend HTTP call, one
Redis publish on a channel, or one cache write. `RedisService.publish` and
`cacheSet` catch and log all transport errors, so effects never throw. -/
inductive Effect
  | backendCall (agentId : String) (payload : AnalysisRequest)
  | publish (channel : String)
  | cacheSet (key : String) (ttlSeconds : Nat)
deriving DecidableEq, Repr

/-- The payload `SupervisorAgent.orchestrate` sends to every agent:
`case_id` when a truthy `caseId` was supplied, else `input_text`. -/
def orchestratePayload (caseText analysisType : String) (caseId : Option String) :
    AnalysisRequest :=
  if optTruthy caseId then
    { analysis_type := analysisType, case_id := caseId }
  else
    { analysis_type := analysisType, input_text := some caseText }

/-- The `results[agentId]` record written for one per-agent call: the response
payload on success, `{error: error.message, status: 'failed'}` on failure. -/
def entryOfOutcome : CallOutcome → ResultEntry
  | .ok payload => payload
  | .error msg => { error := some msg, status := some "failed" }

/-- The `results` record of an orchestration, keyed by agent id
(`results[agentId] = ...` inside the parallel map). -/
def collectResults (backend : String → CallOutcome) (agents : List String) :
    List (String × ResultEntry) :=
  agents.map (fun agentId => (agentId, entryOfOutcome (backend agentId)))

/-- The inner tools loop of `orchestrate`:
`tools_used.forEach(t => { if (!toolsUsed.includes(t.name)) toolsUsed.push(t.name) })`. -/
def pushToolNames (acc : List String) (tools : List ToolUse) : List String :=
  tools.foldl (fun acc2 t => if t.name ∈ acc2 then acc2 else acc2 ++ [t.name]) acc

/-- One agent's contribution to `toolsUsed`: push its payload's tool names
when the call succeeded and the payload carries a `tools_used` field
(`if (response.data.tools_used)`); failed calls contribute nothing. -/
def stepTools (backend : String → CallOutcome) (acc : List String)
    (agentId : String) : List String :=
  match backend agentId with
  | .ok payload =>
    match payload.tools_used with
    | some tools => pushToolNames acc tools
    | none => acc
  | .error _ => acc

/-- The de-duplicating `toolsUsed` accumulation of `SupervisorAgent.orchestrate`. -/
def collectTools (backend : String → CallOutcome) (agents : List String) :
    List String :=
  agents.foldl (stepTools backend) []

/-- The tool names a call outcome reports: the `name` fields of `tools_used`
on a successful payload, nothing on a failed call. -/
def toolNamesOf : CallOutcome → List String
  | .ok payload => (payload.tools_used.getD []).map ToolUse.name
  | .error _ => []

/-- The `!result.error` test `aggregateResults` uses to split successful from
failed entries (JS truthiness of the `error` field). -/
def entryIsError (r : ResultEntry) : Bool :=
  optTruthy r.error

/-- The body of the per-successful-agent loop in `aggregateResults`: push the
`### agentId` heading, then the rendered `analysis` (or, failing that,
`result`) payload when present, then a blank separator line. -/
def successStep (acc : List String) (p : String × ResultEntry) : List String :=
  let acc := acc ++ ["### " ++ p.1]
  let acc :=
    match p.2.analysis with
    | some v => acc ++ [renderValue v]
    | none =>
      match p.2.result with
      | some v => acc ++ [renderValue v]
      | none => acc
  acc ++ [""]

/-- The `- **agentId**: error` bullet of the "Failed Agents" section. -/
def failedLine (p : String × ResultEntry) : String :=
  "- **" ++ p.1 ++ "**: " ++ p.2.error.getD ""

/-- `SupervisorAgent.aggregateResults`, as the list of markdown sections the
source pushes before joining them with newlines. -/
def aggregateSections (results : List (String × ResultEntry))
    (analysisType : String) : List String :=
  let successfulAgents := results.filter (fun p => !(entryIsError p.2))
  let failedAgents := results.filter (fun p => entryIsError p.2)
  let sections : List String :=
    ["## Multi-Agent " ++ analysisType ++ " Analysis Summary",
     "**Agents consulted:** " ++ toString results.length ++ " (" ++
       toString successfulAgents.length ++ " successful, " ++
       toString failedAgents.length ++ " failed)",
     ""]
  let sections := successfulAgents.foldl successStep sections
  if failedAgents.length > 0 then
    (sections ++ ["### Failed Agents"]) ++ failedAgents.map failedLine
  else
    sections

/-- `SupervisorAgent.aggregateResults`: the sections joined with newlines. -/
def aggregateResults (results : List (String × ResultEntry))
    (analysisType : String) : String :=
  String.intercalate "\n" (aggregateSections results analysisType)

/-- `OrchestrationResult` (`src/types/index.ts`). `processingTime` is the
wall-clock elapsed seconds measured around the parallel join. -/
structure OrchestrationResult where
  taskId : String
  agents : List String
  results : List (String × ResultEntry)
  aggregatedAnalysis : String
  processingTime : Nat
  toolsUsed : List String
deriving DecidableEq, Repr

/-- The effects of one per-agent call inside `orchestrate`: the backend HTTP
call always happens (it is the thing that may fail); a success additionally
publishes a task-progress event. -/
def agentEffects (backend : String → CallOutcome) (payload : AnalysisRequest)
    (agentId : String) : List Effect :=
  Effect.backendCall agentId payload ::
    (match backend agentId with
     | .ok _ => [Effect.publish "a2a:task_progress"]
     | .error _ => [])

/-- `SupervisorAgent.orchestrate`: resolve the agent set via `routeTask`,
issue one backend call per agent (each failure isolated to its own `results`
slot — the `catch` converts it to an error record, so the operation itself
always returns), aggregate, cache the result for 3600 seconds, publish the
completion event. Returns the `OrchestrationResult` and the effect trace.
`taskId` models the generated uuid, `ptime` the measured elapsed seconds. -/
def orchestrate (backend : String → CallOutcome)
    (caseText analysisType : String) (caseId : Option String)
    (taskId : String) (ptime : Nat) : OrchestrationResult × List Effect :=
  let assignedAgents := routeTask analysisType
  let payload := orchestratePayload caseText analysisType caseId
  let results := collectResults backend assignedAgents
  let toolsUsed := collectTools backend assignedAgents
  let aggregatedAnalysis := aggregateResults results analysisType
  let orchestrationResult : OrchestrationResult :=
    { taskId := taskId, agents := assignedAgents, results := results,
      aggregatedAnalysis := aggregatedAnalysis, processingTime := ptime,
      toolsUsed := toolsUsed }
  (orchestrationResult,
   assignedAgents.foldr (fun a acc => agentEffects backend payload a ++ acc) [] ++
     [Effect.cacheSet ("orchestration:" ++ taskId) 3600,
      Effect.publish "a2a:orchestration_complete"])

/-- The response shape of `A2AServer.orchestrateAnalysis` (no aggregated
narrative; `agents` and the `results` keys are the requested analysis types). -/
structure OrchestrateAnalysisResult where
  taskId : String
  agents : List String
  results : List (String × ResultEntry)
  processingTime : Nat
  toolsUsed : List String
deriving DecidableEq, Repr

/-- `A2AServer.orchestrateAnalysis`: fan out one backend call per requested
analysis type, key `results` by type, and compute `toolsUsed` as
`Object.values(results).filter(r => r.tools_used).flatMap(r => r.tools_used.map(t => t.name))`
— a concatenation with NO de-duplication. `backend` maps an analysis type to
that call's outcome. -/
def orchestrateAnalysis (backend : String → CallOutcome)
    (analysisTypes : List String) (taskId : String) (ptime : Nat) :
    OrchestrateAnalysisResult :=
  let results := collectResults backend analysisTypes
  let toolsUsed :=
    ((results.map Prod.snd).filter (fun r => r.tools_used.isSome)).foldr
      (fun r acc => (r.tools_used.getD []).map ToolUse.name ++ acc) []
  { taskId := taskId, agents := analysisTypes, results := results,
    processingTime := ptime, toolsUsed := toolsUsed }

/-- Responses of the `POST /api/agents/orchestrate` route. -/
inductive OrchestrateResponse
  | badRequest (httpStatus : Nat) (error : String)
  | ok (httpStatus : Nat) (result : OrchestrationResult)
deriving DecidableEq, Repr

/-- The `POST /api/agents/orchestrate` handler in `src/index.ts`: reject with
400 when neither `caseText` nor `caseId` is truthy, otherwise call
`supervisor.orchestrate(caseText || '', analysisType || 'full_analysis', caseId)`.
Returns the HTTP response together with every effect performed. -/
def agentsOrchestrateRoute (backend : String → CallOutcome)
    (caseText analysisType caseId : Option String)
    (taskId : String) (ptime : Nat) : OrchestrateResponse × List Effect :=
  if !(optTruthy caseText) && !(optTruthy caseId) then
    (.badRequest 400 "Either caseText or caseId is required", [])
  else
    let run := orchestrate backend (strOrDefault caseText "")
      (strOrDefault analysisType "full_analysis") caseId taskId ptime
    (.ok 200 run.1, run.2)

/-! ## Specification-side descriptions of the narrative structure

These state, in the spec's vocabulary, what one successful agent's block of
the aggregate narrative looks like; `aggregateSections` is proved equal to
their concatenation. -/

/-- The payload lines of one successful agent's section: the `analysis`
value if present (verbatim when textual, the structured dump otherwise),
else the `result` value, else nothing. -/
def renderBody (r : ResultEntry) : List String :=
  match r.analysis with
  | some v => [renderValue v]
  | none =>
    match r.result with
    | some v => [renderValue v]
    | none => []

/-- One successful agent's narrative block: heading, payload, blank line. -/
def successSection (p : String × ResultEntry) : List String :=
  ("### " ++ p.1) :: (renderBody p.2 ++ [""])

/-- Concatenation of the per-agent narrative blocks, in order. -/
def sectionsConcat (l : List (String × ResultEntry)) : List String :=
  l.foldr (fun p acc => successSection p ++ acc) []

/-- Sample successful backend payload used by concrete witnesses. -/
def samplePayload : ResultEntry :=
  { analysis := some (.jStr "The contract is enforceable."),
    tools_used := some [{ name := "rag_search_tool" }, { name := "rag_search_tool" },
                        { name := "risk_assessment_tool" }] }

/-- Sample backend oracle for witnesses: the research agent's call fails,
every other call succeeds with `samplePayload`. -/
def sampleBackend : String → CallOutcome := fun agentId =>
  if agentId = "research-agent" then .error "connect ECONNREFUSED"
  else .ok samplePayload

/-! ## Full JS semantics of the routing lookup

`routingMap` is a plain object literal, and JS bracket lookup consults the
prototype chain: for a string like `"toString"` that names an inherited
`Object.prototype` member, `routingMap[analysisType]` yields that inherited
member — a function, hence truthy — so `|| ['legal-analyst']` is bypassed
and `routeTask` returns a non-list (on which `assignedAgents.map` then
throws). The following definitions model the lookup faithfully, inherited
members included. -/

/-- The property names every plain object literal inherits from
`Object.prototype`; looking any of them up on `routingMap` yields a truthy
(function or object) value, not `undefined`. -/
def objectPrototypeKeys : List String :=
  ["constructor", "hasOwnProperty", "isPrototypeOf", "propertyIsEnumerable",
   "toLocaleString", "toString", "valueOf", "__proto__",
   "__defineGetter__", "__defineSetter__", "__lookupGetter__", "__lookupSetter__"]

/-- The value `routingMap[analysisType]` evaluates to under full JS
semantics: an own entry of the object literal (an agent-id list), else an
inherited `Object.prototype` member (a truthy function value), else
`undefined`. -/
inductive JsLookup
  | ownList (agents : List String)
  | inheritedFn (name : String)
  | jsUndefined
deriving DecidableEq, Repr

/-- `routingMap[analysisType]` with the prototype chain: an own key hits its
table row (`routeTask` restricted to `routingKeys` is exactly the table),
otherwise an inherited `Object.prototype` member name hits that member,
otherwise `undefined`. -/
def routingLookup (analysisType : String) : JsLookup :=
  if analysisType ∈ routingKeys then .ownList (routeTask analysisType)
  else if analysisType ∈ objectPrototypeKeys then .inheritedFn analysisType
  else .jsUndefined

/-- What `routeTask` can actually return under full JS semantics: an
agent-id list, or an inherited function value (which is not a list and
makes the caller's `assignedAgents.map(...)` throw). -/
inductive RouteResult
  | list (agents : List String)
  | jsFunction (name : String)
deriving DecidableEq, Repr

/-- `routingMap[analysisType] || ['legal-analyst']` under full JS semantics:
any truthy lookup result — an own table row or an inherited function —
bypasses the fallback; only `undefined` falls back to the default list. -/
def routeTaskJs (analysisType : String) : RouteResult :=
  match routingLookup analysisType with
  | .ownList l => .list l
  | .inheritedFn n => .jsFunction n
  | .jsUndefined => .list ["legal-analyst"]

/-! ## Helper lemmas -/

theorem pushToolNames_cons (acc : List String) (t : ToolUse) (ts : List ToolUse) :
    pushToolNames acc (t :: ts)
      = pushToolNames (if t.name ∈ acc then acc else acc ++ [t.name]) ts := rfl

theorem mem_pushToolNames (ts : List ToolUse) (acc : List String) (x : String) :
    x ∈ pushToolNames acc ts ↔ x ∈ acc ∨ x ∈ ts.map ToolUse.name := by
  induction ts generalizing acc with
  | nil => simp [pushToolNames]
  | cons t ts ih =>
    rw [pushToolNames_cons, ih]
    by_cases h : t.name ∈ acc
    · rw [if_pos h]
      constructor
      · rintro (hx | hx)
        · exact Or.inl hx
        · exact Or.inr (by simp [hx])
      · rintro (hx | hx)
        · exact Or.inl hx
        · rcases List.mem_map.mp hx with ⟨u, hu, rfl⟩
          rcases List.mem_cons.mp hu with rfl | hu
          · exact Or.inl h
          · exact Or.inr (List.mem_map.mpr ⟨u, hu, rfl⟩)
    · rw [if_neg h]
      simp only [List.mem_append, List.mem_singleton, List.map_cons, List.mem_cons]
      tauto

theorem nodup_pushToolNames (ts : List ToolUse) (acc : List String)
    (h : acc.Nodup) : (pushToolNames acc ts).Nodup := by
  induction ts generalizing acc with
  | nil => exact h
  | cons t ts ih =>
    rw [pushToolNames_cons]
    apply ih
    by_cases hm : t.name ∈ acc
    · rwa [if_pos hm]
    · rw [if_neg hm]
      rw [List.nodup_append]
      refine ⟨h, List.nodup_singleton _, ?_⟩
      intro a ha hb
      rcases List.mem_singleton.mp hb with rfl
      exact hm ha

theorem mem_stepTools (backend : String → CallOutcome) (acc : List String)
    (agentId : String) (x : String) :
    x ∈ stepTools backend acc agentId ↔
      x ∈ acc ∨ x ∈ toolNamesOf (backend agentId) := by
  unfold stepTools toolNamesOf
  cases backend agentId with
  | error m => simp
  | ok payload =>
    cases h : payload.tools_used with
    | none => simp [h]
    | some ts => simp [h, mem_pushToolNames]

theorem nodup_stepTools (backend : String → CallOutcome) (acc : List String)
    (agentId : String) (h : acc.Nodup) :
    (stepTools backend acc agentId).Nodup := by
  unfold stepTools
  cases backend agentId with
  | error m => exact h
  | ok payload =>
    cases ht : payload.tools_used with
    | none => simpa [ht] using h
    | some ts => simpa [ht] using nodup_pushToolNames ts acc h

theorem mem_foldl_stepTools (backend : String → CallOutcome)
    (agents : List String) (acc : List String) (x : String) :
    x ∈ agents.foldl (stepTools backend) acc ↔
      x ∈ acc ∨ ∃ a ∈ agents, x ∈ toolNamesOf (backend a) := by
  induction agents generalizing acc with
  | nil => simp
  | cons a agents ih =>
    rw [List.foldl_cons, ih, mem_stepTools]
    constructor
    · rintro ((hx | hx) | ⟨b, hb, hx⟩)
      · exact Or.inl hx
      · exact Or.inr ⟨a, List.mem_cons_self a agents, hx⟩
      · exact Or.inr ⟨b, List.mem_cons_of_mem a hb, hx⟩
    · rintro (hx | ⟨b, hb, hx⟩)
      · exact Or.inl (Or.inl hx)
      · rcases List.mem_cons.mp hb with rfl | hb
        · exact Or.inl (Or.inr hx)
        · exact Or.inr ⟨b, hb, hx⟩

theorem nodup_foldl_stepTools (backend : String → CallOutcome)
    (agents : List String) (acc : List String) (h : acc.Nodup) :
    (agents.foldl (stepTools backend) acc).Nodup := by
  induction agents generalizing acc with
  | nil => exact h
  | cons a agents ih =>
    rw [List.foldl_cons]
    exact ih _ (nodup_stepTools backend acc a h)

theorem successStep_eq (acc : List String) (p : String × ResultEntry) :
    successStep acc p = acc ++ successSection p := by
  unfold successStep successSection renderBody
  cases p.2.analysis with
  | some v => simp
  | none => cases p.2.result with
    | some v => simp
    | none => simp

theorem foldl_successStep (l : List (String × ResultEntry)) (acc : List String) :
    l.foldl successStep acc = acc ++ sectionsConcat l := by
  induction l generalizing acc with
  | nil => simp [sectionsConcat]
  | cons p l ih =>
    rw [List.foldl_cons, successStep_eq, ih]
    show acc ++ successSection p ++ sectionsConcat l
      = acc ++ sectionsConcat (p :: l)
    rw [List.append_assoc]
    rfl

theorem routeTask_nodup (analysisType : String) : (routeTask analysisType).Nodup := by
  unfold routeTask
  repeat' split
  all_goals decide

theorem routeTask_fallback (t : String) (h : t ∉ routingKeys) :
    routeTask t = ["legal-analyst"] := by
  simp only [routingKeys, List.mem_cons, List.mem_singleton, not_or,
    List.not_mem_nil] at h
  obtain ⟨h1, h2, h3, h4, h5, h6, h7, h8, -⟩ := h
  simp [routeTask, h1, h2, h3, h4, h5, h6, h7, h8]

theorem routeTaskJs_eq_routeTask (t : String) (h : t ∉ objectPrototypeKeys) :
    routeTaskJs t = .list (routeTask t) := by
  unfold routeTaskJs routingLookup
  by_cases hk : t ∈ routingKeys
  · rw [if_pos hk]
  · rw [if_neg hk, if_neg h, routeTask_fallback t hk]

theorem collectResults_map_fst (backend : String → CallOutcome)
    (agents : List String) :
    (collectResults backend agents).map Prod.fst = agents := by
  unfold collectResults
  rw [List.map_map]
  exact List.map_id agents

/-! ## Claims -/

/-- **C1.** For every orchestration over the N routed targets in which any
subset of the per-agent backend calls fail, `SupervisorAgent.orchestrate`
still returns normally — each per-agent failure is caught and converted into
that agent's `{error, status: 'failed'}` record, so in the embedding
`orchestrate` is a total function of the backend oracle. Its `results` map
has exactly N entries whose keys are the N routed targets (which are
pairwise distinct), where each successfully-called target's entry is the
backend payload and each failed target's entry records that call's error. -/
theorem orchestrate_partial_failure_isolated
    (backend : String → CallOutcome) (caseText analysisType : String)
    (caseId : Option String) (taskId : String) (ptime : Nat) :
    (orchestrate backend caseText analysisType caseId taskId ptime).1.results.length
      = (routeTask analysisType).length ∧
    (orchestrate backend caseText analysisType caseId taskId ptime).1.results.map Prod.fst
      = routeTask analysisType ∧
    (routeTask analysisType).Nodup ∧
    ∀ a ∈ routeTask analysisType,
      (∀ p, backend a = .ok p →
        (a, p) ∈ (orchestrate backend caseText analysisType caseId taskId ptime).1.results) ∧
      (∀ m, backend a = .error m →
        (a, ({ error := some m, status := some "failed" } : ResultEntry))
          ∈ (orchestrate backend caseText analysisType caseId taskId ptime).1.results) := by
  have hres : (orchestrate backend caseText analysisType caseId taskId ptime).1.results
      = collectResults backend (routeTask analysisType) := rfl
  refine ⟨?_, ?_, routeTask_nodup analysisType, ?_⟩
  · rw [hres]; unfold collectResults; rw [List.length_map]
  · rw [hres]; exact collectResults_map_fst backend (routeTask analysisType)
  · intro a ha
    constructor
    · intro p hp
      rw [hres]
      exact List.mem_map.mpr ⟨a, ha, by rw [show entryOfOutcome (backend a) = p from by rw [hp]; rfl]⟩
    · intro m hm
      rw [hres]
      refine List.mem_map.mpr ⟨a, ha, ?_⟩
      rw [show entryOfOutcome (backend a)
            = ({ error := some m, status := some "failed" } : ResultEntry) from by
            rw [hm]; rfl]

/-- Witness for C1: on a `case_analysis` orchestration (routed to
`legal-analyst` and `research-agent`) where the research agent's call fails,
the results map still has both entries, the success recording the payload
and the failure recording its error. -/
theorem orchestrate_partial_failure_isolated_witness :
    (orchestrate sampleBackend "Breach of contract." "case_analysis" none "oid" 2).1.results.length = 2 ∧
    ("legal-analyst", samplePayload)
      ∈ (orchestrate sampleBackend "Breach of contract." "case_analysis" none "oid" 2).1.results ∧
    ("research-agent",
      ({ error := some "connect ECONNREFUSED", status := some "failed" } : ResultEntry))
      ∈ (orchestrate sampleBackend "Breach of contract." "case_analysis" none "oid" 2).1.results := by
  have h := orchestrate_partial_failure_isolated sampleBackend "Breach of contract."
    "case_analysis" none "oid" 2
  refine ⟨h.1, ?_, ?_⟩
  · exact (h.2.2.2 "legal-analyst" (by decide)).1 samplePayload (by rfl)
  · exact (h.2.2.2 "research-agent" (by decide)).2 "connect ECONNREFUSED" (by rfl)

/-- **C2.** Task status only ever moves along the chain
`pending → in_progress → (completed | failed)`: the sequence of values taken
by `task.status`, over the only code path that ever writes it
(`POST /tasks` creation plus `processTask`; the `GET` handlers never mutate),
is exactly one of the two full chains — no step back to `pending` or
`in_progress` after a terminal state, and no jump from `pending` straight to
a terminal state without passing `in_progress`. -/
theorem task_status_strict_chain (agents : List A2AAgentCard)
    (backend : CallOutcome) (taskId agentId taskType input : String)
    (tCreate tComplete : Nat) :
    (submitTask agents backend taskId agentId taskType input tCreate tComplete).statusTrace
        = [.pending, .in_progress, .completed] ∨
    (submitTask agents backend taskId agentId taskType input tCreate tComplete).statusTrace
        = [.pending, .in_progress, .failed] := by
  unfold submitTask
  cases lookupAgent agents agentId with
  | none => right; rfl
  | some card =>
    cases backend with
    | ok payload => left; rfl
    | error msg => right; rfl

/-- **C3.** A task submitted with an `agentId` absent from the registry at
dispatch time terminates in `failed`, with the error
`Agent not found: <agentId>` (which mentions the agent id), and no backend
HTTP call is ever issued for it. -/
theorem unknown_agent_task_fails (agents : List A2AAgentCard)
    (backend : CallOutcome) (taskId agentId taskType input : String)
    (tCreate tComplete : Nat)
    (h : lookupAgent agents agentId = none) :
    (submitTask agents backend taskId agentId taskType input tCreate tComplete).finalTask.status
        = .failed ∧
    (submitTask agents backend taskId agentId taskType input tCreate tComplete).finalTask.error
        = some ("Agent not found: " ++ agentId) ∧
    (submitTask agents backend taskId agentId taskType input tCreate tComplete).backendCalled
        = false ∧
    (submitTask agents backend taskId agentId taskType input tCreate tComplete).statusTrace
        = [.pending, .in_progress, .failed] := by
  unfold submitTask
  rw [h]
  exact ⟨rfl, rfl, rfl, rfl⟩

/-- Witness for C3: against the default registry, a task for
`nonexistent-agent` fails with the agent-not-found error. -/
theorem unknown_agent_task_fails_witness :
    lookupAgent defaultAgents "nonexistent-agent" = none ∧
    (submitTask defaultAgents (.ok samplePayload) "task-1" "nonexistent-agent"
        "full_analysis" "case text" 0 0).finalTask.status = .failed ∧
    (submitTask defaultAgents (.ok samplePayload) "task-1" "nonexistent-agent"
        "full_analysis" "case text" 0 0).finalTask.error
      = some "Agent not found: nonexistent-agent" := by
  have hnone : lookupAgent defaultAgents "nonexistent-agent" = none := by decide
  have h := unknown_agent_task_fails defaultAgents (.ok samplePayload) "task-1"
    "nonexistent-agent" "full_analysis" "case text" 0 0 hnone
  exact ⟨hnone, h.1, h.2.1⟩

/-- **C4 (counterexample).** The claim says the task returned in the
`POST /tasks` response is in status `pending`. It is not: `processTask(task)`
is called without `await`, so its body runs synchronously up to the first
`await` — mutating the shared task to `in_progress` — before
`res.status(201).json(task)` serializes it. At this concrete input (default
registry, known agent) the response snapshot is `in_progress`, not
`pending`. -/
theorem submit_response_pending_counterexample :
    (submitTask defaultAgents (.ok samplePayload) "task-1" "legal-analyst"
        "case_analysis" "case text" 0 1).responseTask.status = .in_progress ∧
    ¬ (submitTask defaultAgents (.ok samplePayload) "task-1" "legal-analyst"
        "case_analysis" "case text" 0 1).responseTask.status = .pending := by
  decide

/-- **C4 (amended).** `POST /tasks` creates the task in `pending` and stores
it (the first status in its trace is `pending`), responds 201, and schedules
dispatch without awaiting it; but because the dispatch routine runs
synchronously up to its first backend await before the response is
serialized, the task snapshot in the submit response is already
`in_progress` when the agent exists — and already `failed` when the agent is
unknown — never `pending`. Later states are observed by polling `get`. -/
theorem submit_response_status (agents : List A2AAgentCard)
    (backend : CallOutcome) (taskId agentId taskType input : String)
    (tCreate tComplete : Nat) :
    (submitTask agents backend taskId agentId taskType input tCreate tComplete).httpStatus
        = 201 ∧
    (submitTask agents backend taskId agentId taskType input tCreate tComplete).statusTrace.head?
        = some .pending ∧
    (submitTask agents backend taskId agentId taskType input tCreate tComplete).responseTask.status
        = (match lookupAgent agents agentId with
           | none => .failed
           | some _ => .in_progress) := by
  unfold submitTask
  cases lookupAgent agents agentId with
  | none => exact ⟨rfl, rfl, rfl⟩
  | some card =>
    cases backend with
    | ok payload => exact ⟨rfl, rfl, rfl⟩
    | error msg => exact ⟨rfl, rfl, rfl⟩

/-- **C5.** A task whose `agentId` resolves in the registry and whose backend
call succeeds terminates in `completed`, with `result` equal to the backend's
payload, `completedAt` stamped with the completion-time clock reading (which
is `≥ createdAt`, the clock being monotone between the two readings), and a
`a2a:task_complete` event published. -/
theorem known_agent_success_completes (agents : List A2AAgentCard)
    (payload : ResultEntry) (taskId agentId taskType input : String)
    (tCreate tComplete : Nat)
    (hfound : (lookupAgent agents agentId).isSome = true)
    (ht : tCreate ≤ tComplete) :
    (submitTask agents (.ok payload) taskId agentId taskType input tCreate tComplete).finalTask.status
        = .completed ∧
    (submitTask agents (.ok payload) taskId agentId taskType input tCreate tComplete).finalTask.result
        = some payload ∧
    (submitTask agents (.ok payload) taskId agentId taskType input tCreate tComplete).finalTask.completedAt
        = some tComplete ∧
    (submitTask agents (.ok payload) taskId agentId taskType input tCreate tComplete).finalTask.createdAt
        ≤ tComplete ∧
    "a2a:task_complete"
        ∈ (submitTask agents (.ok payload) taskId agentId taskType input tCreate tComplete).published := by
  obtain ⟨card, hc⟩ := Option.isSome_iff_exists.mp hfound
  unfold submitTask
  rw [hc]
  exact ⟨rfl, rfl, rfl, ht, by simp⟩

/-- Witness for C5: a task for the registered `legal-analyst` agent with a
successful backend call, created at time 3 and completed at time 5. -/
theorem known_agent_success_completes_witness :
    ((lookupAgent defaultAgents "legal-analyst").isSome = true ∧ 3 ≤ 5) ∧
    (submitTask defaultAgents (.ok samplePayload) "task-1" "legal-analyst"
        "case_analysis" "case text" 3 5).finalTask.status = .completed ∧
    (submitTask defaultAgents (.ok samplePayload) "task-1" "legal-analyst"
        "case_analysis" "case text" 3 5).finalTask.result = some samplePayload := by
  have h := known_agent_success_completes defaultAgents samplePayload "task-1"
    "legal-analyst" "case_analysis" "case text" 3 5 (by decide) (by decide)
  exact ⟨⟨by decide, by decide⟩, h.1, h.2.1⟩

/-- **C6.** For every orchestration request, the `agents` field of the
returned `OrchestrationResult` is exactly the ordered agent-id list the
routing table produced for the requested analysis type, and the keys of the
`results` map are those same agent ids. -/
theorem orchestration_agents_from_routing
    (backend : String → CallOutcome) (caseText analysisType : String)
    (caseId : Option String) (taskId : String) (ptime : Nat) :
    (orchestrate backend caseText analysisType caseId taskId ptime).1.agents
        = routeTask analysisType ∧
    (orchestrate backend caseText analysisType caseId taskId ptime).1.results.map Prod.fst
        = routeTask analysisType := by
  exact ⟨rfl, collectResults_map_fst backend (routeTask analysisType)⟩

/-- **C7 (counterexample).** The claim — toolsUsed is the de-duplicated
union, with no element appearing twice — is false for the A2A
`orchestrateAnalysis` fan-out, whose `toolsUsed` is
`Object.values(results).filter(r => r.tools_used).flatMap(...)` with no
de-duplication: two successful calls that both report `rag_search_tool`
leave it in the list more than once. -/
theorem toolsUsed_dedup_counterexample :
    ¬ (orchestrateAnalysis (fun _ => .ok samplePayload)
        ["case_analysis", "legal_research"] "oid" 2).toolsUsed.Nodup ∧
    (orchestrateAnalysis (fun _ => .ok samplePayload)
        ["case_analysis", "legal_research"] "oid" 2).toolsUsed
      = ["rag_search_tool", "rag_search_tool", "risk_assessment_tool",
         "rag_search_tool", "rag_search_tool", "risk_assessment_tool"] := by
  decide

/-- **C7 (amended).** For the Supervisor's `orchestrate`, `toolsUsed` is the
de-duplicated union of the tool names reported by the successful per-agent
payloads only — no element appears twice, and a name is present iff some
routed agent's call succeeded with a payload reporting it; failed calls
contribute nothing. (The separate A2A `orchestrateAnalysis` endpoint instead
concatenates the successful payloads' tool names without de-duplication.) -/
theorem supervisor_toolsUsed_dedup_union
    (backend : String → CallOutcome) (caseText analysisType : String)
    (caseId : Option String) (taskId : String) (ptime : Nat) :
    (orchestrate backend caseText analysisType caseId taskId ptime).1.toolsUsed.Nodup ∧
    ∀ x, x ∈ (orchestrate backend caseText analysisType caseId taskId ptime).1.toolsUsed ↔
      ∃ a ∈ routeTask analysisType, x ∈ toolNamesOf (backend a) := by
  constructor
  · exact nodup_foldl_stepTools backend (routeTask analysisType) [] List.nodup_nil
  · intro x
    have hdef : (orchestrate backend caseText analysisType caseId taskId ptime).1.toolsUsed
        = (routeTask analysisType).foldl (stepTools backend) [] := rfl
    rw [hdef, mem_foldl_stepTools]
    simp

/-- Witness for C7 (amended): on a `case_analysis` orchestration where the
legal analyst succeeds (reporting `rag_search_tool` twice) and the research
agent fails, `toolsUsed` is duplicate-free and contains `rag_search_tool`. -/
theorem supervisor_toolsUsed_dedup_union_witness :
    (orchestrate sampleBackend "Breach of contract." "case_analysis" none "oid" 2).1.toolsUsed.Nodup ∧
    "rag_search_tool"
      ∈ (orchestrate sampleBackend "Breach of contract." "case_analysis" none "oid" 2).1.toolsUsed := by
  have h := supervisor_toolsUsed_dedup_union sampleBackend "Breach of contract."
    "case_analysis" none "oid" 2
  exact ⟨h.1, (h.2 "rag_search_tool").mpr ⟨"legal-analyst", by decide, by decide⟩⟩

/-- **C8.** The aggregate narrative's section list decomposes exactly into: a
header naming the analysis type; a counts line with total, successful and
failed agent counts; a blank line; one block per successful agent (heading,
the `analysis`-or-`result` payload rendered verbatim when textual and as its
structured dump otherwise, blank separator); and a trailing
`### Failed Agents` section listing exactly the failed agents with their
error messages — a section that is entirely absent when no agent failed. The
narrative itself is these sections joined with newlines
(`aggregateResults = String.intercalate "\n" ∘ aggregateSections`). -/
theorem aggregate_narrative_structure
    (results : List (String × ResultEntry)) (analysisType : String) :
    aggregateSections results analysisType =
      ["## Multi-Agent " ++ analysisType ++ " Analysis Summary",
       "**Agents consulted:** " ++ toString results.length ++ " (" ++
         toString (results.filter (fun p => !(entryIsError p.2))).length ++
         " successful, " ++
         toString (results.filter (fun p => entryIsError p.2)).length ++ " failed)",
       ""] ++
      sectionsConcat (results.filter (fun p => !(entryIsError p.2))) ++
      (if results.filter (fun p => entryIsError p.2) = [] then []
       else "### Failed Agents" ::
         (results.filter (fun p => entryIsError p.2)).map failedLine) := by
  unfold aggregateSections
  dsimp only
  rw [foldl_successStep]
  by_cases h : results.filter (fun p => entryIsError p.2) = []
  · rw [h]
    simp
  · have hlen : 0 < (results.filter (fun p => entryIsError p.2)).length :=
      List.length_pos.mpr h
    rw [if_neg h, if_pos hlen]
    simp [List.append_assoc]

/-- **C9 (code bug).** The claim — every string outside the routing table's
key set resolves to the one-element default `["legal-analyst"]` — is the
spec's and plainly the code's intent (`routingMap[analysisType] ||
['legal-analyst']`), but the code has a slip: JS bracket lookup consults the
prototype chain, so for the non-key string `"toString"` the lookup finds the
inherited, truthy `Object.prototype.toString` and bypasses the `||`
fallback, returning a function instead of the default list (on which
`assignedAgents.map` then throws). This theorem evaluates the faithful
lookup model at that failing input; `routeTaskJs_eq_routeTask` shows the
divergence is confined to the inherited `Object.prototype` member names. -/
theorem routing_prototype_leak :
    "toString" ∉ routingKeys ∧
    routeTaskJs "toString" = RouteResult.jsFunction "toString" ∧
    routeTaskJs "toString" ≠ RouteResult.list ["legal-analyst"] := by
  decide

/-- **C10.** A `POST /api/agents/orchestrate` request that supplies neither a
`caseText` nor a `caseId` is answered with a 400 error, and the Supervisor's
`orchestrate` is never invoked: the effect trace is empty — no backend call
is made, nothing is written to the cache, and no event is published. -/
theorem orchestrate_route_requires_input (backend : String → CallOutcome)
    (analysisType : Option String) (taskId : String) (ptime : Nat) :
    agentsOrchestrateRoute backend none analysisType none taskId ptime
      = (.badRequest 400 "Either caseText or caseId is required", []) := rfl

end AILegal
